import Mathlib

/-!
Verification of the anchored-pitch validation pipeline of the PRAGENT
repository (package `pr_swarm`).  The Python sources are shallowly embedded:
pure functions become Lean functions over explicit data, optional generative
backends become `Option` function arguments, the JSON/pydantic parsing of a
generator reply (an excluded I/O adapter) is an explicit parser argument, and
Python exceptions become `Except` values.

String conventions: a Python `str` is a Lean `String`; Python `None` for an
optional string is `Option.none`; absent dictionary keys in a normalized
search record are the empty string (the code only ever reads them through
`or`-chains that treat `None` and `""` alike).  `py_strip`, `py_upper`,
`py_lower` and `py_clean` model `str.strip()`, `str.upper()`, `str.lower()`
and the `_clean` helper of `research_agent.py` for the ASCII data handled
here.

The pydantic layer is load-bearing and modelled explicitly.  The code
requires the pydantic v2 API (`model_validate`, `model_dump`,
`model_post_init`); under it `LatestPieceAnalysis.url : Optional[HttpUrl]`
means three things the claims depend on: constructing an analysis validates
the url string (`"N/A"` and non-URL strings raise `ValidationError`, so the
constructing functions return `Except`); a stored url is a pydantic-core
`Url` object with no `str` methods (so `validate_anchor`'s sixth check, which
calls `.strip()` on it, raises `AttributeError`); and
`json.dumps(model_dump())` raises `TypeError` on a `Url`-valued field (so the
pitch composer's generative payload serialization fails whenever the url is
set).  Raised exceptions are the `PyExc` type, reduced to the exception class
and the offending field/input or message.
-/

namespace PRSwarm

/-- Models Python `str.strip()`: drop whitespace from both ends. -/
def py_strip (s : String) : String :=
  ⟨((s.data.dropWhile Char.isWhitespace).reverse.dropWhile Char.isWhitespace).reverse⟩

/-- Models Python `str.upper()` (ASCII). -/
def py_upper (s : String) : String :=
  ⟨s.data.map Char.toUpper⟩

/-- Models Python `str.lower()` (ASCII). -/
def py_lower (s : String) : String :=
  ⟨s.data.map Char.toLower⟩

/-- Models Python slicing `s[:n]` (by code points, as Python does). -/
def py_take (s : String) (n : Nat) : String :=
  ⟨s.data.take n⟩

/-- Models Python `len(s)` (number of code points). -/
def py_len (s : String) : Nat :=
  s.data.length

/-- Collapse every maximal whitespace run to a single space
(`re.sub(r"\s+", " ", ·)`); `in_run` records whether the previous character
was whitespace. -/
def collapse_ws (in_run : Bool) (l : List Char) : List Char :=
  match l with
  | [] => []
  | c :: cs =>
    if c.isWhitespace then
      if in_run then collapse_ws true cs else ' ' :: collapse_ws true cs
    else c :: collapse_ws false cs

/-- `_clean` from `research_agent.py`:
`re.sub(r"\s+", " ", (s or "").strip())`. -/
def py_clean (s : String) : String :=
  ⟨collapse_ws false (py_strip s).data⟩

/-- Models Python `s.startswith(pre)` (also the anchored regex matches
below), by code points. -/
def py_startswith (s pre : String) : Bool :=
  decide (s.data.take pre.data.length = pre.data)

/-- Models Python `s.endswith(suf)`, by code points. -/
def py_endswith (s suf : String) : Bool :=
  decide (s.data.reverse.take suf.data.length = suf.data.reverse)

/-- Python `s or dflt` for an `Optional[str] `s`. -/
def py_or_str (s : Option String) (dflt : String) : String :=
  match s with
  | none => dflt
  | some s => if s = "" then dflt else s

/-- Split a character list at newline characters (Python-style line view of a
string; used to speak about the first line of a pitch body). -/
def split_nl (l : List Char) : List (List Char) :=
  match l with
  | [] => [[]]
  | c :: cs =>
    match split_nl cs with
    | [] => [[]]
    | h :: t => if c = '\n' then [] :: h :: t else (c :: h) :: t

/-- The lines of a string. -/
def string_lines (s : String) : List String :=
  (split_nl s.data).map (fun l => (⟨l⟩ : String))

/-- First line of a string that is not blank (non-empty after stripping). -/
def first_nonblank_line (s : String) : String :=
  ((string_lines s).filter (fun l => py_strip l ≠ "")).headD ""

/-! ## Data model (schemas/) -/

/-- Normalized search record `{title, link, source, snippet}` produced by the
search adapter (`_search_articles` in `agents/research_agent.py`); an absent
or `None` value is the empty string. -/
structure SearchRecord where
  title : String := ""
  link : String := ""
  source : String := ""
  snippet : String := ""
deriving DecidableEq, Repr

/-- A validated pydantic-core `Url` value (what a pydantic v2 `HttpUrl` field
stores).  It is not a `str` and has none of the `str` methods — which is why
`validate_anchor`'s sixth check raises on it.  Its normalized rendering is
never read by the code under claim, so only the raw accepted string is
kept. -/
structure PyUrl where
  raw : String
deriving DecidableEq, Repr

/-- A raised Python exception, reduced to its class and the offending
field/input (for `pydantic.ValidationError`) or message (for
`AttributeError` / `TypeError`, using CPython's wording). -/
inductive PyExc where
  | validationError (field : String) (input : String)
  | attributeError (msg : String)
  | typeError (msg : String)
deriving DecidableEq, Repr

/-- Decidable equality of call outcomes (`Except` carries no derived
instance). -/
instance exceptDecEq {ε α : Type} [DecidableEq ε] [DecidableEq α] :
    DecidableEq (Except ε α) := fun x y =>
  match x, y with
  | Except.ok a, Except.ok b => decidable_of_iff (a = b) (by simp)
  | Except.error a, Except.error b => decidable_of_iff (a = b) (by simp)
  | Except.ok _, Except.error _ => isFalse (by simp)
  | Except.error _, Except.ok _ => isFalse (by simp)

/-- Models pydantic's `HttpUrl` validation (pydantic-core's Url parser) on
the string shapes this repository produces: accept an `http://` or
`https://` scheme followed by a non-empty, whitespace-free remainder; reject
everything else — in particular the sentinel `"N/A"`, the empty string, and
bare words.  Accepted values wrap the raw string. -/
def http_url_validate (s : String) : Option PyUrl :=
  let rest : Option (List Char) :=
    if py_startswith s "http://" then some (s.data.drop 7)
    else if py_startswith s "https://" then some (s.data.drop 8)
    else none
  match rest with
  | none => none
  | some r => if r.isEmpty || r.any Char.isWhitespace then none else some ⟨s⟩

/-- `schemas/latest_piece_analysis.py::LatestPieceAnalysis`.  `confidence` is
the literal `"high" | "medium" | "low"`; `url` is the `Optional[HttpUrl]`
field: `none` models Python `None`, and a set value is a validated `PyUrl`
object, never a plain string. -/
structure LatestPieceAnalysis where
  title : String := "N/A"
  url : Option PyUrl := none
  publisher : String := "N/A"
  published_date : Option String := none
  thesis_one_liner : String := "N/A"
  who_it_serves : String := "N/A"
  editorial_tension : String := "N/A"
  what_the_piece_left_open : String := "N/A"
  why_life_legally_single_fits : String := "N/A"
  required_opening_anchor : String := ""
  confidence : String := "low"
  failure_reason : Option String := none
  key_evidence_bullets : List String := []
deriving DecidableEq, Repr

/-- `schemas/primary_angle.py::PrimaryAngle`. -/
structure PrimaryAngle where
  angle_name : String
  one_sentence_angle : String
  tension_hook : String
  what_makes_it_new : String
  why_you : String
  why_us : String
  proof_points : List String := []
  risk_or_objection : Option String := none
  confidence : String
deriving DecidableEq, Repr

/-- `orchestrator/validation.py::ValidationResult`. -/
structure ValidationResult where
  ok : Bool
  reason : Option String := none
deriving DecidableEq, Repr

/-- `schemas/models.py::Prospect` (keywords is the raw optional CSV cell). -/
structure Prospect where
  name : String
  publication : String := ""
  keywords : Option String := none
deriving DecidableEq, Repr

/-- `schemas/models.py::PitchDraft` (citations omitted: every code path the
claims touch passes the empty list). -/
structure PitchDraft where
  prospect_name : String
  slug : String
  subject_line : String
  greeting : String
  body : String
  closing : String
deriving DecidableEq, Repr

/-- `schemas/models.py::ManifestError`. -/
structure ManifestError where
  prospect_name : String
  stage : String
  message : String
deriving DecidableEq, Repr

/-- `schemas/models.py::RunManifest`.  The wall-clock timestamps are modelled
by the `finished` flag (`finish()` sets `finished_at`). -/
structure RunManifest where
  total_prospects : Nat
  successful : Nat := 0
  errors : List ManifestError := []
  finished : Bool := false
deriving DecidableEq, Repr

/-! ## Research stage (`agents/research_agent.py`) -/

/-- The url computed for `results[0]`:
`url = (r0.get("link") or r0.get("url") or "").strip() or "N/A"`.
A normalized record never carries a separate `"url"` key, so that middle
fallback is vacuous here. -/
def record_url (r : SearchRecord) : String :=
  let stripped := py_strip r.link
  if stripped = "" then "N/A" else stripped

/-- The publisher computed for `results[0]`:
`publisher = _clean(r0.get("source") or r0.get("publisher") or "N/A")`.
A normalized record never carries a `"publisher"` key. -/
def record_publisher (r : SearchRecord) : String :=
  py_clean (if r.source = "" then "N/A" else r.source)

/-- `_heuristic_from_results`: deterministic extractor over the normalized
search results; `results[0]` is treated as the latest piece.  Construction of
the pydantic model validates the url string it is handed: the empty-results
branch passes the literal `url="N/A"` and therefore raises `ValidationError`
instead of returning its `NEEDS_RESEARCH` record, and the `results[0]` branch
passes the computed url (`"N/A"` for a blank link, the stripped link
otherwise), raising whenever that string is not a valid http(s) URL. -/
def heuristic_from_results (results : List SearchRecord) (prospect_name : String) :
    Except PyExc LatestPieceAnalysis :=
  match results with
  | [] =>
    Except.error (PyExc.validationError "url" "N/A")
  | r0 :: _ =>
    let title := py_clean r0.title
    let snippet := py_clean r0.snippet
    let url := record_url r0
    let publisher := record_publisher r0
    match http_url_validate url with
    | none => Except.error (PyExc.validationError "url" url)
    | some u =>
      let has_real_anchor := title ≠ "" ∧ url ≠ "N/A" ∧ py_upper publisher ≠ "N/A"
      Except.ok
        { title := if title = "" then "N/A" else title
          url := some u
          publisher := publisher
          published_date := none
          thesis_one_liner := if snippet = "" then "N/A" else py_take snippet 180
          who_it_serves := "Readers of this coverage"
          editorial_tension := "The unresolved tension or tradeoff surfaced in the piece"
          what_the_piece_left_open := "What readers still want answered"
          why_life_legally_single_fits := "Extends the conversation with a singles-first lens"
          required_opening_anchor :=
            if has_real_anchor then
              "Hi " ++ prospect_name ++ " â€” I just read your recent piece \"" ++
                title ++ "\" and had a follow-up idea."
            else "NEEDS_RESEARCH"
          confidence := if has_real_anchor then "high" else "low"
          failure_reason :=
            if has_real_anchor then none
            else some "Missing title/url/publisher in search results; cannot anchor safely."
          key_evidence_bullets := if snippet = "" then [] else [py_take snippet 120] }

/-- `re.sub(r"^```(?:json)?\s*", "", raw.strip())` then
`re.sub(r"\s*```$", "", raw)`: strip a leading/trailing code fence from a
generator reply. -/
def strip_json_fences (s : String) : String :=
  let s := py_strip s
  let s :=
    if py_startswith s "```json" then ⟨(s.data.drop 7).dropWhile Char.isWhitespace⟩
    else if py_startswith s "```" then ⟨(s.data.drop 3).dropWhile Char.isWhitespace⟩
    else s
  if py_endswith s "```" then
    ⟨((s.data.take (s.data.length - 3)).reverse.dropWhile Char.isWhitespace).reverse⟩
  else s

/-- The `_SYSTEM` prompt of `agents/research_agent.py`. -/
def research_system_prompt : String :=
  "You are a sharp media researcher.\nYou MUST:\n- pick the writer\x27s most recent relevant piece (or say why you can\x27t)\n- extract editorial tension and what the piece leaves open\n- write an opening line that explicitly references the piece (title or unique detail)\n- output STRICT JSON that matches the schema exactly\nNo marketing language. No generic claims. No hallucinated facts.\n"

/-- The compacted search results sent to the generator
(`compact` in `find_latest_piece_analysis`). -/
def compact_record (r : SearchRecord) : SearchRecord :=
  { title := py_clean r.title
    link := r.link
    source := py_clean r.source
    snippet := py_clean r.snippet }

/-- Models `json.dumps` of the user payload of `find_latest_piece_analysis`.
JSON serialization is an excluded I/O adapter; no theorem depends on this
rendering, only on the reply of the generator it is fed to. -/
def research_user_prompt (prospect_name : String) (outlet : Option String)
    (beat_keywords : List String) (results : List SearchRecord)
    (num_results : Nat) : String :=
  let compact := (results.take num_results).map compact_record
  "prospect_name=" ++ prospect_name ++
    ";outlet=" ++ (outlet.getD "") ++
    ";beat_keywords=" ++ String.intercalate "," beat_keywords ++
    ";search_results=" ++
    String.intercalate "|"
      (compact.map (fun r => r.title ++ "~" ++ r.link ++ "~" ++ r.source ++ "~" ++ r.snippet))

/-- `find_latest_piece_analysis` of `agents/research_agent.py`, after the
excluded network search (`_search_articles`) has delivered `results`.
`llm` is the optional generator `(system_prompt, user_prompt) -> str`;
`parse` models `json.loads` + `LatestPieceAnalysis.model_validate` on the
fence-stripped reply (`none` = `JSONDecodeError` or `ValidationError`).  Only
that parse is guarded by the `except` clause: the fallback call to
`_heuristic_from_results` sits inside the handler, so a `ValidationError` it
raises (empty results, blank or invalid first link) propagates out — hence
the `Except.map`: the confidence/failure_reason mutation happens only on a
successfully constructed fallback. -/
def find_latest_piece_analysis (prospect_name : String) (outlet : Option String)
    (beat_keywords : List String) (results : List SearchRecord)
    (llm : Option (String → String → String))
    (parse : String → Option LatestPieceAnalysis)
    (num_results : Nat) : Except PyExc LatestPieceAnalysis :=
  match llm with
  | none => heuristic_from_results results prospect_name
  | some gen =>
    let raw := strip_json_fences
      (gen research_system_prompt
        (research_user_prompt prospect_name outlet beat_keywords results num_results))
    match parse raw with
    | some analysis => Except.ok analysis
    | none =>
      (heuristic_from_results results prospect_name).map fun fallback =>
        { fallback with
            confidence := "low"
            failure_reason := some "LLM output invalid or unparsable" }

/-! ## Validation gates (`orchestrator/validation.py`) -/

/-- The reason reported by the confidence check of `validate_anchor`:
`latest_piece.failure_reason or "latest_piece_not_high_confidence"`. -/
def anchor_confidence_reason (lp : LatestPieceAnalysis) : String :=
  py_or_str lp.failure_reason "latest_piece_not_high_confidence"

/-- `validate_anchor`: the AnchorGate.  The `Option` argument models the
Python `None` check (`if latest_piece is None`).  The sixth check is
`if not latest_piece.url or latest_piece.url.strip().upper() == "N/A"`:
for `url = None` the `not` short-circuits and the check fails normally, but a
set url is a truthy pydantic-core `Url` with no `.strip()` method, so the
check raises `AttributeError` — `ok = true` is unreachable for schema-typed
input. -/
def validate_anchor (latest_piece : Option LatestPieceAnalysis) :
    Except PyExc ValidationResult :=
  match latest_piece with
  | none => Except.ok ⟨false, some "no_latest_piece_returned"⟩
  | some lp =>
    if lp.confidence ≠ "high" then
      Except.ok ⟨false, some (anchor_confidence_reason lp)⟩
    else if lp.required_opening_anchor = "" then
      Except.ok ⟨false, some "missing_required_opening_anchor"⟩
    else if py_upper (py_strip lp.required_opening_anchor) = "NEEDS_RESEARCH" ∨
        py_upper (py_strip lp.required_opening_anchor) = "N/A" then
      Except.ok ⟨false, some "invalid_required_opening_anchor"⟩
    else if py_upper (py_strip lp.title) = "" ∨ py_upper (py_strip lp.title) = "N/A" then
      Except.ok ⟨false, some "missing_latest_piece_title"⟩
    else
      match lp.url with
      | none => Except.ok ⟨false, some "missing_latest_piece_url"⟩
      | some _ =>
        Except.error
          (PyExc.attributeError "\x27Url\x27 object has no attribute \x27strip\x27")

/-- `validate_angle`: the AngleGate. -/
def validate_angle (angle : Option PrimaryAngle) : ValidationResult :=
  match angle with
  | none => ⟨false, some "no_angle_generated"⟩
  | some a =>
    if a.confidence ≠ "high" then ⟨false, some "low_confidence_angle"⟩
    else if py_len (py_strip a.one_sentence_angle) < 25 then ⟨false, some "angle_too_thin"⟩
    else ⟨true, none⟩

/-! ## Angle builder (`orchestrator/angle_builder.py`) -/

/-- `_strip_json` of `angle_builder.py` is the same fence stripping as
`strip_json_fences` up to a final `.strip()`. -/
def strip_json_fences_angle (s : String) : String :=
  py_strip (strip_json_fences s)

/-- The `_SYSTEM` prompt of `orchestrator/angle_builder.py`. -/
def angle_system_prompt : String :=
  "You are an elite pitch strategist.\nGiven a writer\x27s latest piece analysis, produce ONE primary angle that Life Legally Single can own.\n\nRequirements:\n- Must explicitly tie to the piece\x27s \x27what_the_piece_left_open\x27\n- Must include editorial tension and a clear \x27why now\x27\n- No generic \x27empower\x27 language unless you make it concrete\n- Output STRICT JSON matching schema\n"

/-- Models `json.dumps` of the angle builder payload (excluded JSON
serialization; no theorem depends on this rendering). -/
def angle_user_prompt (latest_piece : LatestPieceAnalysis) (brand_assets_hint : String) : String :=
  "latest_piece=" ++ latest_piece.title ++ "~" ++ latest_piece.what_the_piece_left_open ++
    "~" ++ latest_piece.editorial_tension ++ ";brand_assets_hint=" ++ brand_assets_hint

/-- `build_primary_angle` of `orchestrator/angle_builder.py`.  `parse` models
`json.loads` + `PrimaryAngle.model_validate` on the fence-stripped reply
(`none` = `JSONDecodeError` or `ValidationError`). -/
def build_primary_angle (latest_piece : LatestPieceAnalysis) (brand_assets_hint : String)
    (llm : Option (String → String → String))
    (parse : String → Option PrimaryAngle) : PrimaryAngle :=
  match llm with
  | none =>
    { angle_name := "Continuation: what the piece left open"
      one_sentence_angle :=
        "A singles-first follow-up answering what your piece left open: " ++
          latest_piece.what_the_piece_left_open
      tension_hook := latest_piece.editorial_tension
      what_makes_it_new :=
        "A timely shift in how solo adults are building community, identity, and rituals without coupling."
      why_you := "Direct continuation of your piece: " ++ latest_piece.title
      why_us := latest_piece.why_life_legally_single_fits
      proof_points :=
        [ "Singles-by-choice trend signals + cultural examples (solo dating, ohitorisama, solo travel)",
          "Audience insights + story-ready frameworks (DATĒBASE™ + My aiLIFE Coach™ beta learnings)" ]
      risk_or_objection :=
        some "Could be dismissed as \x27lifestyle\x27; we ground it in clear stakes, real behaviors, and reported examples."
      confidence := "high" }
  | some gen =>
    let raw := strip_json_fences_angle
      (gen angle_system_prompt (angle_user_prompt latest_piece brand_assets_hint))
    match parse raw with
    | some angle =>
      if py_lower angle.confidence ≠ "high" then { angle with confidence := "high" }
      else angle
    | none =>
      { angle_name := "Continuation: what the piece left open"
        one_sentence_angle :=
          "A singles-first follow-up answering what your piece left open: " ++
            latest_piece.what_the_piece_left_open
        tension_hook := latest_piece.editorial_tension
        what_makes_it_new :=
          "LLM JSON parse failed; using deterministic fallback grounded in the research fields."
        why_you := "Direct continuation of your piece: " ++ latest_piece.title
        why_us := latest_piece.why_life_legally_single_fits
        proof_points :=
          [ "Singles-by-choice trend signals + cultural examples (solo dating, ohitorisama, solo travel)",
            "Audience insights + story-ready frameworks (DATĒBASE™ + My aiLIFE Coach™ beta learnings)" ]
        risk_or_objection :=
          some "Could be dismissed as \x27lifestyle\x27; we ground it in clear stakes, real behaviors, and reported examples."
        confidence := "low" }

/-! ## Pitch composer (`agents/pitch_agent.py`) -/

/-- `_strip_fences` of `pitch_agent.py`:
`s.strip()`, drop a leading ```` ```(markdown|md|text)? ```` fence with
trailing whitespace, drop a trailing ```` ``` ```` fence with preceding
whitespace, final `.strip()`. -/
def strip_md_fences (s : String) : String :=
  let s := py_strip s
  let s :=
    if py_startswith s "```markdown" then ⟨(s.data.drop 11).dropWhile Char.isWhitespace⟩
    else if py_startswith s "```md" then ⟨(s.data.drop 5).dropWhile Char.isWhitespace⟩
    else if py_startswith s "```text" then ⟨(s.data.drop 7).dropWhile Char.isWhitespace⟩
    else if py_startswith s "```" then ⟨(s.data.drop 3).dropWhile Char.isWhitespace⟩
    else s
  let s :=
    if py_endswith s "```" then
      ⟨((s.data.take (s.data.length - 3)).reverse.dropWhile Char.isWhitespace).reverse⟩
    else s
  py_strip s

/-- The `_SYSTEM` prompt of `agents/pitch_agent.py`. -/
def pitch_system_prompt : String :=
  "You are a world-class PR strategist who writes journalist-first pitches.\nYou write like a human, not a bot.\n\nNon-negotiable:\n1) The FIRST LINE must explicitly reference the writer\x27s specific recent piece.\n   Use the provided required_opening_anchor verbatim (do not paraphrase).\n2) The pitch must show \x27editorial tension\x27 and a clear angle the brand can uniquely own.\n3) No generic compliments. No hype. No \x27AI-powered platform\x27 unless it\x27s directly relevant.\n4) Keep it short: ~150-220 words + 2 bullet proof points + 1 CTA question.\n5) Public-source only; do not invent facts.\n"

/-- The refusal document returned by the confidence/title safety valve of
`draft_pitch_markdown`. -/
def refusal_low_confidence : String :=
  "# NEEDS_RESEARCH\n\nWe could not reliably identify a recent relevant piece to anchor this pitch.\n\n**Why this matters:** This system is designed to avoid generic outreach.\nPlease provide a recent article URL (or enable real search) and re-run.\n\n"

/-- The refusal document returned when the required opening anchor strips to
the empty string. -/
def refusal_missing_anchor : String :=
  "# NEEDS_RESEARCH\n\nMissing required opening anchor for this writer\x27s latest piece.\n\n"

/-- The deterministic (no-LLM) pitch template of `draft_pitch_markdown`;
`opening` is the stripped required opening anchor. -/
def deterministic_pitch_body (opening : String) (latest_piece : LatestPieceAnalysis)
    (primary_angle : PrimaryAngle) : String :=
  opening ++
  "\n\nI\x27m reaching out with a follow-up angle that builds directly on the tension you surfaced: **" ++
  latest_piece.editorial_tension ++
  "**.\n\n**The story:** " ++ primary_angle.one_sentence_angle ++
  "\n**Why now:** " ++ primary_angle.what_makes_it_new ++
  "\n**Why it fits your beat:** " ++ primary_angle.why_you ++
  "\n\nA quick note on *why us*: " ++ primary_angle.why_us ++
  "\n\nProof points:\n- " ++ primary_angle.proof_points.headD "(add proof point)" ++
  "\n- " ++ (primary_angle.proof_points.getD 1 "(add proof point)") ++
  "\n\nIf you\x27re exploring a follow-up to your piece, would a 10-minute chat be useful this week?\n\nâ€” Life Legally Single PR (draft-only)\n"

/-- Models `json.dumps` of the pitch payload (excluded JSON serialization; no
theorem depends on this rendering). -/
def pitch_user_prompt (prospect_name prospect_email : String)
    (latest_piece : LatestPieceAnalysis) (primary_angle : PrimaryAngle)
    (brand_one_liner : String) : String :=
  "prospect=" ++ prospect_name ++ "~" ++ prospect_email ++
    ";latest_piece=" ++ latest_piece.title ++ "~" ++ latest_piece.required_opening_anchor ++
    ";primary_angle=" ++ primary_angle.one_sentence_angle ++
    ";brand_one_liner=" ++ brand_one_liner ++
    ";constraints=first_line_must_equal_required_opening_anchor,no_generic_flattery,keep_short,draft_only"

/-- `draft_pitch_markdown` of `agents/pitch_agent.py`.  The two refusal
branches and the deterministic template are pure string work and always
return.  The LLM branch first serializes the payload with
`json.dumps({... "latest_piece": latest_piece.model_dump() ...})`: when the
url field holds a pydantic-core `Url`, `json.dumps` raises
`TypeError("Object of type Url is not JSON serializable")` before the
generator is called; when the url is `None` the payload serializes and the
generator's reply is returned fence-stripped, with no check that it begins
with the anchor. -/
def draft_pitch_markdown (prospect_name prospect_email : String)
    (latest_piece : LatestPieceAnalysis) (primary_angle : PrimaryAngle)
    (brand_one_liner : String) (llm : Option (String → String → String)) :
    Except PyExc String :=
  if latest_piece.confidence = "low" ∨ latest_piece.title = "N/A" then
    Except.ok refusal_low_confidence
  else
    let opening := py_strip latest_piece.required_opening_anchor
    if opening = "" then Except.ok refusal_missing_anchor
    else
      match llm with
      | none => Except.ok (deterministic_pitch_body opening latest_piece primary_angle)
      | some gen =>
        match latest_piece.url with
        | some _ =>
          Except.error (PyExc.typeError "Object of type Url is not JSON serializable")
        | none =>
          Except.ok (strip_md_fences
            (gen pitch_system_prompt
              (pitch_user_prompt prospect_name prospect_email latest_piece primary_angle
                brand_one_liner)) ++ "\n")

/-! ## Slug + workflow-facing pitch agent -/

/-- Characters kept by `utils/slugify.py` (`[a-z0-9]` after lower-casing). -/
def slug_char (c : Char) : Bool :=
  (decide ('a' ≤ c) && decide (c ≤ 'z')) || (decide ('0' ≤ c) && decide (c ≤ '9'))

/-- `re.sub(r"[^a-z0-9]+", "-", ·)`: replace each maximal run of
non-slug characters with a single hyphen; `in_run` records whether the
previous character was non-slug. -/
def dash_runs (in_run : Bool) (l : List Char) : List Char :=
  match l with
  | [] => []
  | c :: cs =>
    if slug_char c then c :: dash_runs false cs
    else if in_run then dash_runs true cs
    else '-' :: dash_runs true cs

/-- `utils/slugify.py::slugify`.  The final hyphen-collapsing substitution of
the source is a no-op here because `dash_runs` already emits one hyphen per
run. -/
def slugify (value : String) : String :=
  let v := py_lower (py_strip value)
  let dashed := dash_runs false v.data
  ⟨((dashed.dropWhile (fun c => c = '-')).reverse.dropWhile (fun c => c = '-')).reverse⟩

/-- `PitchDraftingAgentV2.run` of `agents/pitch_agent.py`.  `prospect_email`
stands for `getattr(profile, "email", "N/A")` (the profile object itself is
not otherwise read); an exception from `draft_pitch_markdown` propagates. -/
def pitch_agent_v2_run (brand_one_liner : String)
    (llm : Option (String → String → String)) (prospect : Prospect)
    (prospect_email : String) (latest_piece : LatestPieceAnalysis)
    (angle : PrimaryAngle) : Except PyExc PitchDraft :=
  (draft_pitch_markdown prospect.name prospect_email latest_piece angle
    brand_one_liner llm).map fun md =>
      { prospect_name := prospect.name
        slug := slugify prospect.name
        subject_line := py_take ("Follow-up to: " ++ latest_piece.title) 180
        greeting := ""
        body := py_strip md
        closing := "" }

/-! ## Batch runner (`run.py`) and the `process_prospect` call boundary -/

/-- The keyword-only parameters of `orchestrator/workflow.py::process_prospect`
that a call site failed to pass (all five have no default). -/
def process_prospect_missing {D R A P : Type} (prospect : Option Prospect)
    (discovery_agent : Option D) (research_agent : Option R)
    (angle_builder : Option A) (pitch_agent : Option P) : List String :=
  (if prospect.isNone then ["prospect"] else []) ++
  (if discovery_agent.isNone then ["discovery_agent"] else []) ++
  (if research_agent.isNone then ["research_agent"] else []) ++
  (if angle_builder.isNone then ["angle_builder"] else []) ++
  (if pitch_agent.isNone then ["pitch_agent"] else [])

/-- A parameter name in quotes, as CPython prints it in a `TypeError`. -/
def quoted_name (n : String) : String :=
  "\x27" ++ n ++ "\x27"

/-- CPython joining of missing-parameter names in a `TypeError` message. -/
def join_quoted_names (ns : List String) : String :=
  match ns with
  | [] => ""
  | [n] => quoted_name n
  | [n, m] => quoted_name n ++ " and " ++ quoted_name m
  | ns =>
    String.intercalate ", " (ns.dropLast.map quoted_name) ++ ", and " ++
      quoted_name (ns.getLastD "")

/-- The `TypeError` message CPython raises when keyword binding of
`process_prospect` fails. -/
def process_prospect_type_error (missing : List String) : String :=
  "process_prospect() missing " ++ toString missing.length ++
    " required keyword-only argument" ++ (if missing.length = 1 then "" else "s") ++
    ": " ++ join_quoted_names missing

/-- A call of `orchestrator/workflow.py::process_prospect` with an explicit
keyword-argument assignment.  `D`, `R`, `A`, `P` are the opaque agent object
types; `body` is the flow body, entered only when keyword binding succeeds —
a missing required keyword-only argument raises `TypeError` before the body
runs. -/
def call_process_prospect {D R A P Res : Type} (prospect : Option Prospect)
    (discovery_agent : Option D) (research_agent : Option R)
    (angle_builder : Option A) (pitch_agent : Option P)
    (body : Prospect → D → R → A → P → Except String Res) : Except String Res :=
  match prospect, discovery_agent, research_agent, angle_builder, pitch_agent with
  | some pr, some d, some r, some ab, some pa => body pr d r ab pa
  | _, _, _, _, _ =>
    Except.error (process_prospect_type_error
      (process_prospect_missing prospect discovery_agent research_agent
        angle_builder pitch_agent))

/-- The success dictionary of `process_prospect` as consumed by
`run.py::handle_prospect` (`result["pitch"]` with a `.slug` to write the
markdown file).  The `profile`/`notes` entries only feed the CSV summary
rows, which the claims do not mention. -/
structure PipelineSuccess where
  pitch : PitchDraft
deriving DecidableEq, Repr

/-- The unit of work `run.py::process_all_prospects.handle_prospect` wires
for one prospect: `process_prospect` called with keyword arguments
`prospect`, `discovery_agent`, `research_agent` and `pitch_agent` — the
required keyword-only `angle_builder` parameter of
`orchestrator/workflow.py::process_prospect` is not passed. -/
def run_py_handle_prospect {D R A P : Type} (d : D) (r : R) (pa : P)
    (body : Prospect → D → R → A → P → Except String PipelineSuccess)
    (p : Prospect) : Except String PipelineSuccess :=
  call_process_prospect (some p) (some d) (some r) (none : Option A) (some pa) body

/-- One step of the batch fold: the `try`/`except` of `handle_prospect`.  On
success the pitch markdown file `{slug}.md` is written and
`manifest.record_success()` runs; on an exception `manifest.record_error`
appends a `"pipeline"`-stage error carrying `str(exc)`. -/
def batch_step (handle : Prospect → Except String PipelineSuccess)
    (acc : RunManifest × List String) (p : Prospect) : RunManifest × List String :=
  match handle p with
  | Except.ok res =>
    ({ acc.1 with successful := acc.1.successful + 1 }, acc.2 ++ [res.pitch.slug ++ ".md"])
  | Except.error msg =>
    ({ acc.1 with errors := acc.1.errors ++ [⟨p.name, "pipeline", msg⟩] }, acc.2)

/-- `run.py::process_all_prospects`, restricted to the observables the claims
mention: the sealed run manifest and the names of the pitch markdown files
written.  The per-prospect tasks run concurrently under an admission
semaphore and `asyncio.gather`; neither the manifest counters nor the set of
files depends on completion order, so the batch is folded in list order.
`manifest.finish()` becomes the `finished` flag. -/
def process_all_prospects (prospects : List Prospect)
    (handle : Prospect → Except String PipelineSuccess) : RunManifest × List String :=
  let init : RunManifest × List String :=
    ({ total_prospects := prospects.length, successful := 0, errors := [], finished := false },
      [])
  let res := prospects.foldl (batch_step handle) init
  ({ res.1 with finished := true }, res.2)

/-! ## Concrete fixtures used by witnesses and counterexamples -/

/-- Spec section 8 scenario B record: a fully populated search hit. -/
def good_record : SearchRecord :=
  { title := "X", link := "http://a", source := "Y", snippet := "Z" }

/-- The analysis the deterministic extractor returns for `good_record` (high
confidence, validated url). -/
def good_piece : LatestPieceAnalysis :=
  { title := "X"
    url := some ⟨"http://a"⟩
    publisher := "Y"
    published_date := none
    thesis_one_liner := "Z"
    who_it_serves := "Readers of this coverage"
    editorial_tension := "The unresolved tension or tradeoff surfaced in the piece"
    what_the_piece_left_open := "What readers still want answered"
    why_life_legally_single_fits := "Extends the conversation with a singles-first lens"
    required_opening_anchor :=
      "Hi Alice â€” I just read your recent piece \"X\" and had a follow-up idea."
    confidence := "high"
    failure_reason := none
    key_evidence_bullets := ["Z"] }

/-- A search hit whose `source` is the non-empty string `"n/a"`. -/
def na_source_record : SearchRecord :=
  { title := "X", link := "http://a", source := "n/a", snippet := "" }

/-- The analysis returned for `na_source_record`: constructs (valid url) but
is downgraded to low confidence by the `"n/a"` publisher. -/
def na_source_piece : LatestPieceAnalysis :=
  { title := "X"
    url := some ⟨"http://a"⟩
    publisher := "n/a"
    published_date := none
    thesis_one_liner := "N/A"
    who_it_serves := "Readers of this coverage"
    editorial_tension := "The unresolved tension or tradeoff surfaced in the piece"
    what_the_piece_left_open := "What readers still want answered"
    why_life_legally_single_fits := "Extends the conversation with a singles-first lens"
    required_opening_anchor := "NEEDS_RESEARCH"
    confidence := "low"
    failure_reason := some "Missing title/url/publisher in search results; cannot anchor safely."
    key_evidence_bullets := [] }

/-- A search hit with an empty title but a valid link. -/
def no_title_record : SearchRecord :=
  { title := "", link := "http://a", source := "Y", snippet := "" }

/-- The analysis returned for `no_title_record`: constructs (valid url), low
confidence, sentinel anchor. -/
def no_title_piece : LatestPieceAnalysis :=
  { title := "N/A"
    url := some ⟨"http://a"⟩
    publisher := "Y"
    published_date := none
    thesis_one_liner := "N/A"
    who_it_serves := "Readers of this coverage"
    editorial_tension := "The unresolved tension or tradeoff surfaced in the piece"
    what_the_piece_left_open := "What readers still want answered"
    why_life_legally_single_fits := "Extends the conversation with a singles-first lens"
    required_opening_anchor := "NEEDS_RESEARCH"
    confidence := "low"
    failure_reason := some "Missing title/url/publisher in search results; cannot anchor safely."
    key_evidence_bullets := [] }

/-- A search hit whose title is literally `"N/A"` with a valid link and a
real source. -/
def na_title_record : SearchRecord :=
  { title := "N/A", link := "http://a", source := "Y", snippet := "" }

/-- A search hit with a blank link (the computed url falls back to
`"N/A"`). -/
def blank_link_record : SearchRecord :=
  { title := "X", link := "", source := "Y", snippet := "" }

/-- The deterministic angle for `good_piece`. -/
def good_angle : PrimaryAngle :=
  build_primary_angle good_piece "" none (fun _ => none)

/-- A generator whose reply does not begin with the required opening
anchor. -/
def off_anchor_gen : String → String → String :=
  fun _ _ => "Great to meet you!\n\nHere is a totally generic pitch."

/-- A prospect fixture. -/
def prospect_alice : Prospect :=
  { name := "Alice", publication := "Y", keywords := none }

/-- The `TypeError` message raised by every `process_prospect` call that
`run.py` wires (the `angle_builder` keyword is never passed). -/
def angle_builder_type_error : String :=
  "process_prospect() missing 1 required keyword-only argument: \x27angle_builder\x27"

/-- A pitch fixture for the batch-isolation scenario. -/
def bob_pitch : PitchDraft :=
  { prospect_name := "Bob", slug := "bob", subject_line := "Follow-up",
    greeting := "", body := "draft", closing := "" }

/-- A pipeline body realizing the batch-isolation scenario of spec section 8:
the discovery adapter raises for Alice, every other prospect drafts
normally.  Under `run.py`'s wiring this body is never entered, because
keyword binding fails first. -/
def failing_alice_body : Prospect → Unit → Unit → Unit → Unit → Except String PipelineSuccess :=
  fun p _ _ _ _ =>
    if p.name = "Alice" then Except.error "RuntimeError: discovery search raised"
    else Except.ok ⟨bob_pitch⟩

/-- A piece failing both the confidence check and the empty-anchor check of
the AnchorGate, with an explicit `failure_reason`. -/
def low_piece_23 : LatestPieceAnalysis :=
  { title := "Some piece", url := some ⟨"http://a"⟩, publisher := "Y",
    required_opening_anchor := "", confidence := "low",
    failure_reason := some "no confident article" }

/-- A piece with medium confidence, a real title and a real anchor. -/
def medium_piece : LatestPieceAnalysis :=
  { title := "Solo travel is booming", url := some ⟨"http://a"⟩, publisher := "Y",
    required_opening_anchor := "Hi Alice, about your recent piece.",
    confidence := "medium", failure_reason := none }

/-! ## Batch runner lemmas -/

/-- If every unit of work fails with the same message, the batch fold only
appends `"pipeline"` errors: no success is counted and no file is written. -/
theorem foldl_batch_all_errors (handle : Prospect → Except String PipelineSuccess)
    (msg : String) (h : ∀ p, handle p = Except.error msg) :
    ∀ (prospects : List Prospect) (acc : RunManifest × List String),
      prospects.foldl (batch_step handle) acc =
        ({ acc.1 with errors :=
            acc.1.errors ++ prospects.map (fun p => ⟨p.name, "pipeline", msg⟩) }, acc.2) := by
  intro prospects
  induction prospects with
  | nil => intro acc; simp
  | cons p ps ih =>
    intro acc
    simp only [List.foldl_cons, List.map_cons]
    rw [ih]
    simp [batch_step, h p, List.append_assoc]

/-- C4: As wired by `run.py::main()` — `ResearchAgent()` built without a
search client and `process_prospect` invoked without its required
keyword-only `angle_builder` argument — every prospect's unit of work raises
`TypeError` at keyword binding, before any pipeline stage can run: for every
batch the sealed manifest records one `"pipeline"` error per prospect,
`successful = 0`, and no pitch markdown file is written. -/
theorem run_py_wiring_every_prospect_type_errors {D R A P : Type} (d : D) (r : R)
    (pa : P) (body : Prospect → D → R → A → P → Except String PipelineSuccess)
    (prospects : List Prospect) :
    (∀ p : Prospect,
      run_py_handle_prospect d r pa body p = Except.error angle_builder_type_error) ∧
    process_all_prospects prospects (run_py_handle_prospect d r pa body) =
      ({ total_prospects := prospects.length, successful := 0,
         errors := prospects.map (fun p => ⟨p.name, "pipeline", angle_builder_type_error⟩),
         finished := true }, []) := by
  have hp : ∀ p : Prospect,
      run_py_handle_prospect d r pa body p = Except.error angle_builder_type_error := by
    intro p
    have h1 : process_prospect_missing (some p) (some d) (some r) (none : Option A) (some pa)
        = ["angle_builder"] := rfl
    simp only [run_py_handle_prospect, call_process_prospect, h1]
    rfl
  refine ⟨hp, ?_⟩
  simp only [process_all_prospects]
  rw [foldl_batch_all_errors _ _ hp]
  simp

/-- C5 (divergence witness): in the batch-isolation scenario — two prospects,
Alice's discovery adapter raising and Bob completing normally — the code as
wired yields `successful = 0` and two `"pipeline"` errors (both the
`angle_builder` `TypeError`), not `successful = N - 1 = 1` with exactly one
error. -/
theorem batch_isolation_scenario_all_fail :
    process_all_prospects
        [{ name := "Alice", publication := "P", keywords := none },
         { name := "Bob", publication := "P", keywords := none }]
        (run_py_handle_prospect () () () failing_alice_body) =
      ({ total_prospects := 2, successful := 0,
         errors :=
           [⟨"Alice", "pipeline", angle_builder_type_error⟩,
            ⟨"Bob", "pipeline", angle_builder_type_error⟩],
         finished := true }, []) ∧
    ¬ ((process_all_prospects
        [{ name := "Alice", publication := "P", keywords := none },
         { name := "Bob", publication := "P", keywords := none }]
        (run_py_handle_prospect () () () failing_alice_body)).1.successful = 1 ∧
       (process_all_prospects
        [{ name := "Alice", publication := "P", keywords := none },
         { name := "Bob", publication := "P", keywords := none }]
        (run_py_handle_prospect () () () failing_alice_body)).1.errors.length = 1) := by
  constructor
  · rfl
  · intro h
    have := h.2
    simp [process_all_prospects, batch_step, run_py_handle_prospect,
      call_process_prospect] at this

/-! ## Research extractor theorems -/

/-- C8 (code-bug demonstration): on an empty result list with no generator
the extractor does not return at all: the `NEEDS_RESEARCH` record it builds
passes `url="N/A"`, which `Optional[HttpUrl]` rejects, so a
`ValidationError` propagates out of `find_latest_piece_analysis`. -/
theorem empty_results_raises_validation_error (name : String) (outlet : Option String)
    (kws : List String) (parse : String → Option LatestPieceAnalysis) (n : Nat) :
    find_latest_piece_analysis name outlet kws [] none parse n =
      Except.error (PyExc.validationError "url" "N/A") := by
  rfl

/-- C7 (counterexample): a first record whose `title`, `link` and `source`
are all non-empty (`source = "n/a"`) is still assigned `confidence = "low"`,
refuting the claimed "exactly when all three are non-empty"; and a record
with a missing (blank) link is not assigned low confidence with a reason at
all — construction raises `ValidationError` on the fallback url `"N/A"`. -/
theorem nonempty_source_can_still_be_low :
    (heuristic_from_results [na_source_record] "Alice").map
        (fun lp => lp.confidence) = Except.ok "low" ∧
    ("X" : String) ≠ "" ∧ ("http://a" : String) ≠ "" ∧ ("n/a" : String) ≠ "" ∧
    heuristic_from_results [blank_link_record] "Alice" =
      Except.error (PyExc.validationError "url" "N/A") := by
  refine ⟨by decide, by decide, by decide, by decide, by decide⟩

/-- C7 (amended): in deterministic mode `results[0]` is the latest piece, and
an analysis is returned at all only when the derived url string — the
stripped link, `"N/A"` when blank — passes `HttpUrl` validation; otherwise a
`ValidationError` is raised.  When, and only when, the analysis is returned,
`confidence = "high"` holds exactly when the cleaned title is non-empty and
the cleaned source is not (case-insensitively) `"N/A"`; any failure yields
`confidence = "low"` together with the single fixed `failure_reason`
`"Missing title/url/publisher in search results; cannot anchor safely."`,
whichever field is missing. -/
theorem heuristic_first_result_confidence (r0 : SearchRecord)
    (rest : List SearchRecord) (name : String) :
    (http_url_validate (record_url r0) = none →
      heuristic_from_results (r0 :: rest) name =
        Except.error (PyExc.validationError "url" (record_url r0))) ∧
    (∀ lp, heuristic_from_results (r0 :: rest) name = Except.ok lp →
      ((lp.confidence = "high" ↔
        (py_clean r0.title ≠ "" ∧ py_upper (record_publisher r0) ≠ "N/A")) ∧
       (lp.confidence ≠ "high" →
        lp.confidence = "low" ∧
        lp.failure_reason =
          some "Missing title/url/publisher in search results; cannot anchor safely."))) := by
  constructor
  · intro hv
    simp only [heuristic_from_results, hv]
  · intro lp hok
    rcases hv : http_url_validate (record_url r0) with _ | u
    · simp only [heuristic_from_results, hv] at hok
      exact Except.noConfusion hok
    · have hna : record_url r0 ≠ "N/A" := by
        intro he
        rw [he] at hv
        rw [show http_url_validate "N/A" = none from by decide] at hv
        exact Option.noConfusion hv
      simp only [heuristic_from_results, hv, Except.ok.injEq] at hok
      subst hok
      by_cases h : py_clean r0.title ≠ "" ∧ py_upper (record_publisher r0) ≠ "N/A"
      · have h3 : py_clean r0.title ≠ "" ∧ record_url r0 ≠ "N/A" ∧
            py_upper (record_publisher r0) ≠ "N/A" := ⟨h.1, hna, h.2⟩
        simp [h3, h]
      · have h3 : ¬ (py_clean r0.title ≠ "" ∧ record_url r0 ≠ "N/A" ∧
            py_upper (record_publisher r0) ≠ "N/A") := by
          intro hc
          exact h ⟨hc.1, hc.2.2⟩
        simp [h3, h]

/-- C7 (witness for the amended theorem): the fully populated record returns
with high confidence; the `"n/a"`-source record returns with the fixed
failure reason; the blank-link record raises. -/
theorem heuristic_first_result_confidence_witness :
    good_piece.confidence = "high" ∧
    na_source_piece.failure_reason =
      some "Missing title/url/publisher in search results; cannot anchor safely." ∧
    heuristic_from_results [blank_link_record] "Bob" =
      Except.error (PyExc.validationError "url" "N/A") := by
  refine ⟨?_, ?_, ?_⟩
  · exact ((heuristic_first_result_confidence good_record [] "Alice").2 good_piece
      (by decide)).1.mpr (by decide)
  · exact (((heuristic_first_result_confidence na_source_record [] "Alice").2
      na_source_piece (by decide)).2 (by decide)).2
  · exact (heuristic_first_result_confidence blank_link_record [] "Bob").1 (by decide)

/-- C2 (counterexample): both disjuncts of the claimed invariant fail on
returned analyses.  The generative fallback keeps the heuristic greeting
anchor while forcing `confidence = "low"`, and the deterministic extractor
returns `title = "N/A"` with high confidence and a non-sentinel anchor when
the search hit's title is literally `"N/A"` with a valid link and a real
source. -/
theorem invariant_fails_on_fallback_and_na_title :
    (find_latest_piece_analysis "Alice" none [] [good_record]
        (some (fun _ _ => "not json")) (fun _ => none) 5).map
        (fun lp => (lp.confidence, lp.required_opening_anchor)) =
      Except.ok ("low",
        "Hi Alice â€” I just read your recent piece \"X\" and had a follow-up idea.") ∧
    ¬ ("Hi Alice â€” I just read your recent piece \"X\" and had a follow-up idea." = "" ∨
       ("Hi Alice â€” I just read your recent piece \"X\" and had a follow-up idea." : String) =
         "NEEDS_RESEARCH") ∧
    (heuristic_from_results [na_title_record] "Alice").map
        (fun lp => (lp.title, lp.confidence, lp.required_opening_anchor)) =
      Except.ok ("N/A", "high",
        "Hi Alice â€” I just read your recent piece \"N/A\" and had a follow-up idea.") := by
  refine ⟨by decide, by decide, by decide⟩

/-- C2 (amended): every `LatestPieceAnalysis` the deterministic extractor
actually returns (construction succeeding) satisfies: low confidence forces
the `NEEDS_RESEARCH` sentinel anchor, and a non-sentinel anchor only occurs
with high confidence. -/
theorem heuristic_low_confidence_sentinel (results : List SearchRecord) (name : String) :
    ∀ lp, heuristic_from_results results name = Except.ok lp →
      ((lp.confidence = "low" → lp.required_opening_anchor = "NEEDS_RESEARCH") ∧
       (lp.required_opening_anchor ≠ "NEEDS_RESEARCH" → lp.confidence = "high")) := by
  intro lp hok
  match results with
  | [] => exact absurd hok (by simp [heuristic_from_results])
  | r0 :: rest =>
    rcases hv : http_url_validate (record_url r0) with _ | u
    · simp only [heuristic_from_results, hv] at hok
      exact Except.noConfusion hok
    · simp only [heuristic_from_results, hv, Except.ok.injEq] at hok
      subst hok
      by_cases h : py_clean r0.title ≠ "" ∧ record_url r0 ≠ "N/A" ∧
          py_upper (record_publisher r0) ≠ "N/A"
      · simp [h]
      · simp [h]

/-- C2 (witness for the amended theorem): the empty-title analysis is
returned with low confidence, and its anchor is the sentinel. -/
theorem heuristic_low_confidence_sentinel_witness :
    no_title_piece.required_opening_anchor = "NEEDS_RESEARCH" :=
  (heuristic_low_confidence_sentinel [no_title_record] "Alice" no_title_piece
    (by decide)).1 (by decide)

/-- C6 (counterexample): two failures of the claim as stated.  With search
results whose deterministic construction succeeds, the fallback's
`failure_reason` is `"LLM output invalid or unparsable"`, not
`"generation output invalid"`; and with empty results the extractor does not
return the deterministic output at all — the fallback construction raises
`ValidationError` out of the `except` block. -/
theorem generative_invalid_reason_and_crash :
    (find_latest_piece_analysis "Alice" none [] [good_record]
        (some (fun _ _ => "```json\ngarbage\n```")) (fun _ => none) 5).map
        (fun lp => lp.failure_reason) =
      Except.ok (some "LLM output invalid or unparsable") ∧
    (find_latest_piece_analysis "Alice" none [] [good_record]
        (some (fun _ _ => "```json\ngarbage\n```")) (fun _ => none) 5).map
        (fun lp => lp.failure_reason) ≠
      Except.ok (some "generation output invalid") ∧
    find_latest_piece_analysis "Alice" none [] []
        (some (fun _ _ => "```json\ngarbage\n```")) (fun _ => none) 5 =
      Except.error (PyExc.validationError "url" "N/A") := by
  refine ⟨by decide, by decide, by decide⟩

/-- C6 (amended): whenever the generator's fence-stripped reply fails JSON
parsing or schema validation, the parse error itself does not propagate: the
extractor falls back to deterministic mode's outcome for the same search
results, with `confidence` forced to `"low"` and
`failure_reason = "LLM output invalid or unparsable"` on a successfully
constructed fallback — while a `ValidationError` raised by the fallback
construction itself (empty results, blank or invalid first link) propagates
out of the extractor. -/
theorem generative_parse_failure_falls_back (name : String) (outlet : Option String)
    (kws : List String) (results : List SearchRecord) (gen : String → String → String)
    (parse : String → Option LatestPieceAnalysis) (n : Nat)
    (h : parse (strip_json_fences
        (gen research_system_prompt (research_user_prompt name outlet kws results n))) = none) :
    find_latest_piece_analysis name outlet kws results (some gen) parse n =
      (heuristic_from_results results name).map
        (fun fallback =>
          { fallback with
              confidence := "low",
              failure_reason := some "LLM output invalid or unparsable" }) := by
  simp only [find_latest_piece_analysis, h]

/-- C6 (witness for the amended theorem): a concrete always-failing parse on
a concrete reply hits the fallback equation. -/
theorem generative_parse_failure_falls_back_witness :
    find_latest_piece_analysis "Alice" none [] [good_record]
        (some (fun _ _ => "not json")) (fun _ => none) 5 =
      (heuristic_from_results [good_record] "Alice").map
        (fun fallback =>
          { fallback with
              confidence := "low",
              failure_reason := some "LLM output invalid or unparsable" }) :=
  generative_parse_failure_falls_back "Alice" none [] [good_record]
    (fun _ _ => "not json") (fun _ => none) 5 rfl

/-! ## AnchorGate theorems -/

/-- No schema-typed input makes `validate_anchor` return `ok = true`: every
normally returned result is a failure, and the inputs that would pass all
string checks either fail check 6 (url `None`) or raise (url set). -/
theorem validate_anchor_never_ok (lp : LatestPieceAnalysis) (r : ValidationResult)
    (h : validate_anchor (some lp) = Except.ok r) : r.ok = false := by
  rcases hurl : lp.url with _ | u
  · simp only [validate_anchor, hurl] at h
    split_ifs at h <;> (rw [Except.ok.injEq] at h; subst h; rfl)
  · simp only [validate_anchor, hurl] at h
    split_ifs at h <;>
      first
        | (rw [Except.ok.injEq] at h; subst h; rfl)
        | exact Except.noConfusion h

/-- C3 (code-bug demonstration): checks 1-5 behave as the claim's fixed
order says — the null piece, the confidence reason (`failure_reason` when
present, else `latest_piece_not_high_confidence`, also when the anchor check
would fail too) — but check 6 calls `.strip()` on the `Optional[HttpUrl]`
value: with the url unset it reports `missing_latest_piece_url`, and with the
url set it raises `AttributeError`, so `ok = true` is unreachable and the
claimed pass-properties never obtain. -/
theorem validate_anchor_attribute_error_on_pass :
    validate_anchor none = Except.ok ⟨false, some "no_latest_piece_returned"⟩ ∧
    validate_anchor (some low_piece_23) =
      Except.ok ⟨false, some "no confident article"⟩ ∧
    validate_anchor (some medium_piece) =
      Except.ok ⟨false, some "latest_piece_not_high_confidence"⟩ ∧
    validate_anchor (some good_piece) =
      Except.error (PyExc.attributeError "\x27Url\x27 object has no attribute \x27strip\x27") ∧
    validate_anchor (some { good_piece with url := none }) =
      Except.ok ⟨false, some "missing_latest_piece_url"⟩ := by
  refine ⟨rfl, by decide, by decide, by decide, by decide⟩

/-! ## Pitch composer theorems -/

set_option maxRecDepth 100000 in
/-- C9 (counterexample): called in isolation on a medium-confidence piece
with a real title and anchor, the composer drafts a pitch (opening with the
anchor) instead of returning a `NEEDS_RESEARCH` refusal, although
`confidence != "high"`. -/
theorem composer_drafts_despite_medium_confidence :
    medium_piece.confidence ≠ "high" ∧
    draft_pitch_markdown "Alice" "N/A" medium_piece good_angle "Life Legally Single" none ≠
      Except.ok refusal_low_confidence ∧
    draft_pitch_markdown "Alice" "N/A" medium_piece good_angle "Life Legally Single" none ≠
      Except.ok refusal_missing_anchor ∧
    (draft_pitch_markdown "Alice" "N/A" medium_piece good_angle "Life Legally Single"
        none).map first_nonblank_line =
      Except.ok "Hi Alice, about your recent piece." := by
  refine ⟨by decide, by decide, by decide, by decide⟩

/-- C9 (amended): the composer's safety valve refuses — returning one of the
two `NEEDS_RESEARCH` refusal documents, raising nothing — exactly on its own
triggers: `confidence == "low"`, `title == "N/A"`, or an anchor that strips
to the empty string; this holds for any generator argument because both
refusal branches precede any use of the url or the payload. -/
theorem composer_refuses_on_low_or_missing (pn pe : String) (lp : LatestPieceAnalysis)
    (pa : PrimaryAngle) (brand : String) (llm : Option (String → String → String))
    (h : lp.confidence = "low" ∨ lp.title = "N/A" ∨
      py_strip lp.required_opening_anchor = "") :
    draft_pitch_markdown pn pe lp pa brand llm = Except.ok refusal_low_confidence ∨
    draft_pitch_markdown pn pe lp pa brand llm = Except.ok refusal_missing_anchor := by
  by_cases h2 : lp.confidence = "low" ∨ lp.title = "N/A"
  · left
    simp [draft_pitch_markdown, h2]
  · right
    rcases h with h | h | h
    · exact absurd (Or.inl h) h2
    · exact absurd (Or.inr h) h2
    · simp [draft_pitch_markdown, h2, h]

/-- C9 (witness for the amended theorem): a concrete low-confidence piece is
refused. -/
theorem composer_refuses_witness :
    draft_pitch_markdown "Alice" "N/A" low_piece_23 good_angle
        "Life Legally Single" none = Except.ok refusal_low_confidence ∨
    draft_pitch_markdown "Alice" "N/A" low_piece_23 good_angle
        "Life Legally Single" none = Except.ok refusal_missing_anchor :=
  composer_refuses_on_low_or_missing "Alice" "N/A" low_piece_23
    good_angle "Life Legally Single" none (Or.inl rfl)

set_option maxRecDepth 100000 in
/-- C1 (code-bug demonstration): the anchored-pitch contract cannot be met
end to end.  The extractor returns the gate-intended piece for scenario B,
but the anchor gate raises `AttributeError` on it (so "passed both gates"
never obtains); the deterministic composer, called in isolation, does open
the body with the anchor verbatim; the generative composer at the same piece
raises `TypeError` serializing the `Url`-valued payload before the generator
is ever consulted; and when serialization does go through (url `None`), the
generator's off-anchor reply is returned as-is — no self-check substitutes
the deterministic template. -/
theorem pitch_generative_mode_lacks_anchor_self_check :
    heuristic_from_results [good_record] "Alice" = Except.ok good_piece ∧
    validate_anchor (some good_piece) =
      Except.error (PyExc.attributeError "\x27Url\x27 object has no attribute \x27strip\x27") ∧
    (draft_pitch_markdown "Alice" "N/A" good_piece good_angle "Life Legally Single"
        none).map first_nonblank_line =
      Except.ok good_piece.required_opening_anchor ∧
    draft_pitch_markdown "Alice" "N/A" good_piece good_angle "Life Legally Single"
        (some off_anchor_gen) =
      Except.error (PyExc.typeError "Object of type Url is not JSON serializable") ∧
    draft_pitch_markdown "Alice" "N/A" { good_piece with url := none } good_angle
        "Life Legally Single" (some off_anchor_gen) =
      Except.ok "Great to meet you!\n\nHere is a totally generic pitch.\n" ∧
    first_nonblank_line "Great to meet you!\n\nHere is a totally generic pitch.\n" ≠
      good_piece.required_opening_anchor := by
  refine ⟨by decide, by decide, by decide, by decide, by decide, by decide⟩

/-! ## Angle builder theorems -/

/-- C10: `build_primary_angle` never returns a medium-confidence angle: the
deterministic mode always returns `"high"`; a successfully parsed generative
angle is (silently) normalized to `"high"`; and a non-high result only arises
from the generator parse-failure fallback, which returns `"low"` — the one
avenue to `validate_angle`'s `low_confidence_angle` rejection. -/
theorem build_primary_angle_never_medium (lp : LatestPieceAnalysis) (hint : String)
    (llm : Option (String → String → String)) (parse : String → Option PrimaryAngle)
    (hparse : ∀ s a, parse s = some a →
      a.confidence = "high" ∨ a.confidence = "medium" ∨ a.confidence = "low") :
    (build_primary_angle lp hint llm parse).confidence ≠ "medium" ∧
    (llm = none → (build_primary_angle lp hint llm parse).confidence = "high") ∧
    (∀ gen, llm = some gen → ∀ a,
      parse (strip_json_fences_angle (gen angle_system_prompt (angle_user_prompt lp hint))) =
        some a →
      (build_primary_angle lp hint llm parse).confidence = "high") ∧
    ((build_primary_angle lp hint llm parse).confidence ≠ "high" →
      (build_primary_angle lp hint llm parse).confidence = "low" ∧
      (∃ gen, llm = some gen ∧
        parse (strip_json_fences_angle (gen angle_system_prompt (angle_user_prompt lp hint))) =
          none) ∧
      validate_angle (some (build_primary_angle lp hint llm parse)) =
        ⟨false, some "low_confidence_angle"⟩) := by
  match llm with
  | none =>
    refine ⟨by simp [build_primary_angle], fun _ => by simp [build_primary_angle], ?_, ?_⟩
    · intro gen hgen
      exact absurd hgen (by simp)
    · intro hne
      exact absurd (by simp [build_primary_angle]) hne
  | some gen =>
    rcases hr : parse (strip_json_fences_angle
        (gen angle_system_prompt (angle_user_prompt lp hint))) with _ | a
    · have hb : build_primary_angle lp hint (some gen) parse =
          { angle_name := "Continuation: what the piece left open"
            one_sentence_angle :=
              "A singles-first follow-up answering what your piece left open: " ++
                lp.what_the_piece_left_open
            tension_hook := lp.editorial_tension
            what_makes_it_new :=
              "LLM JSON parse failed; using deterministic fallback grounded in the research fields."
            why_you := "Direct continuation of your piece: " ++ lp.title
            why_us := lp.why_life_legally_single_fits
            proof_points :=
              [ "Singles-by-choice trend signals + cultural examples (solo dating, ohitorisama, solo travel)",
                "Audience insights + story-ready frameworks (DATĒBASE™ + My aiLIFE Coach™ beta learnings)" ]
            risk_or_objection :=
              some "Could be dismissed as \x27lifestyle\x27; we ground it in clear stakes, real behaviors, and reported examples."
            confidence := "low" } := by
        simp only [build_primary_angle, hr]
      refine ⟨by rw [hb]; simp, ?_, ?_, ?_⟩
      · intro h
        simp at h
      · intro gen2 hgen a ha
        obtain rfl : gen2 = gen := by cases hgen; rfl
        rw [hr] at ha
        exact nomatch ha
      · intro _
        refine ⟨by rw [hb], ⟨gen, rfl, hr⟩, by rw [hb]; simp [validate_angle]⟩
    · have hlit := hparse _ _ hr
      by_cases hc : py_lower a.confidence ≠ "high"
      · have hb : build_primary_angle lp hint (some gen) parse =
            { a with confidence := "high" } := by
          simp only [build_primary_angle, hr, if_pos hc]
        refine ⟨by rw [hb]; simp, ?_, ?_, ?_⟩
        · intro h
          simp at h
        · intro _ _ _ _
          rw [hb]
        · intro hne
          exact absurd (by rw [hb]) hne
      · have hhigh : a.confidence = "high" := by
          rcases hlit with h | h | h
          · exact h
          · rw [h] at hc
            exact absurd (by decide) hc
          · rw [h] at hc
            exact absurd (by decide) hc
        have hb : build_primary_angle lp hint (some gen) parse = a := by
          simp only [build_primary_angle, hr, if_neg hc]
        refine ⟨by rw [hb, hhigh]; simp, ?_, ?_, ?_⟩
        · intro h
          simp at h
        · intro _ _ _ _
          rw [hb, hhigh]
        · intro hne
          exact absurd (by rw [hb, hhigh]) hne

/-- C10 (witness): with no generator and a vacuous parser the builder returns
a high-confidence angle. -/
theorem build_primary_angle_never_medium_witness :
    (build_primary_angle good_piece "" none (fun _ => none)).confidence = "high" :=
  (build_primary_angle_never_medium good_piece "" none (fun _ => none)
    (fun _ _ h => nomatch h)).2.1 rfl

end PRSwarm
